import Mathlib

/-!
Shallow embedding of the image carousel / full-screen viewer subsystem of
`src/src/pages/ProjectPage.tsx` (a React component of the Portfolio repository).

The component state consists of three `useState` hooks:
  - `showImageViewer : boolean` (initially `false`)
  - `currentImageIndex : number` (initially `0`)
  - `touchStartX : number | null` (initially `null`)

The event handlers mutate this state.  We model the state as a structure and
each handler as a pure state-transformer.  The length of the active project
screenshot list (`project.screenshots.length`, written `N` below) is passed as
a parameter; all the handlers below model the case where `project` is defined
(the `if (project)` guard passed), since the claims concern a mounted project
page.  JavaScript numbers used here (indices, touch X coordinates) only ever
undergo addition, subtraction and comparison, so they are modelled as `Int`.
-/

namespace Portfolio

/-- The React state of the `ProjectPage` component: `showImageViewer`,
`currentImageIndex` and `touchStartX`, with the source field names. -/
structure ProjectPageState where
  showImageViewer : Bool
  currentImageIndex : Int
  touchStartX : Option Int
  deriving DecidableEq

/-- The initial state at mount: `useState(false)`, `useState(0)`,
`useState<number | null>(null)`. -/
def mountState : ProjectPageState :=
  { showImageViewer := false, currentImageIndex := 0, touchStartX := none }

/-- `handleNextImage`: `setCurrentImageIndex(prev => prev === project.screenshots.length - 1 ? 0 : prev + 1)`. -/
def handleNextImage (N : Nat) (s : ProjectPageState) : ProjectPageState :=
  { s with currentImageIndex :=
      if s.currentImageIndex = (N : Int) - 1 then 0 else s.currentImageIndex + 1 }

/-- `handlePrevImage`: `setCurrentImageIndex(prev => prev === 0 ? project.screenshots.length - 1 : prev - 1)`. -/
def handlePrevImage (N : Nat) (s : ProjectPageState) : ProjectPageState :=
  { s with currentImageIndex :=
      if s.currentImageIndex = 0 then (N : Int) - 1 else s.currentImageIndex - 1 }

/-- `handleTouchStart`: `setTouchStartX(e.touches[0].clientX)`. -/
def handleTouchStart (x : Int) (s : ProjectPageState) : ProjectPageState :=
  { s with touchStartX := some x }

/-- `handleTouchEnd`: if `touchStartX !== null`, compute
`swipeDistance = touchStartX - touchEnd`; if `swipeDistance > 50` call
`handleNextImage()`, else if `swipeDistance < -50` call `handlePrevImage()`;
in every case finish with `setTouchStartX(null)`. -/
def handleTouchEnd (N : Nat) (endX : Int) (s : ProjectPageState) : ProjectPageState :=
  let s1 :=
    match s.touchStartX with
    | none => s
    | some touchStartX =>
        let swipeDistance := touchStartX - endX
        if swipeDistance > 50 then handleNextImage N s
        else if swipeDistance < -50 then handlePrevImage N s
        else s
  { s1 with touchStartX := none }

/-- `handleOpenImageViewer(index)`: `setCurrentImageIndex(index); setShowImageViewer(true)`. -/
def handleOpenImageViewer (i : Int) (s : ProjectPageState) : ProjectPageState :=
  { s with currentImageIndex := i, showImageViewer := true }

/-- `handleCloseImageViewer`: `setShowImageViewer(false)`. -/
def handleCloseImageViewer (s : ProjectPageState) : ProjectPageState :=
  { s with showImageViewer := false }

/-- The indicator-dot click handler: `onClick={() => setCurrentImageIndex(index)}` —
a raw state set, with no validation or clamping in the source. -/
def setCurrentImageIndexOp (i : Int) (s : ProjectPageState) : ProjectPageState :=
  { s with currentImageIndex := i }

/-- The inline screenshot click handler, the only call site of
`handleOpenImageViewer` in the source:
`onClick={() => handleOpenImageViewer(currentImageIndex)}`. -/
def inlineImageClick (s : ProjectPageState) : ProjectPageState :=
  handleOpenImageViewer s.currentImageIndex s

/-! Helper arithmetic lemmas about `Int.emod`. -/

theorem emod_add_one (a N : Int) : (a % N + 1) % N = (a + 1) % N := by
  conv_rhs => rw [← Int.emod_add_ediv a N]
  rw [add_right_comm, Int.add_mul_emod_self_left]

theorem emod_succ_eq (a N : Int) (hN : 0 < N) :
    (a + 1) % N = if a % N = N - 1 then 0 else a % N + 1 := by
  rw [← emod_add_one]
  have h0 : 0 ≤ a % N := Int.emod_nonneg a (by omega)
  have h1 : a % N < N := Int.emod_lt_of_pos a hN
  by_cases h : a % N = N - 1
  · rw [h, if_pos rfl]
    have hstep : N - 1 + 1 = N := by ring
    rw [hstep, Int.emod_self]
  · rw [if_neg h]
    exact Int.emod_eq_of_lt (by omega) (by omega)

/-- On a valid index, `handleNextImage` acts as addition of 1 modulo `N`. -/
theorem handleNextImage_currentImageIndex (N : Nat) (s : ProjectPageState)
    (hN : 0 < N) (h0 : 0 ≤ s.currentImageIndex) (h1 : s.currentImageIndex < (N : Int)) :
    (handleNextImage N s).currentImageIndex = (s.currentImageIndex + 1) % (N : Int) := by
  have hN' : (0 : Int) < (N : Int) := by exact_mod_cast hN
  rw [emod_succ_eq _ _ hN', Int.emod_eq_of_lt h0 h1]
  rfl

/-- Iterating `handleNextImage` `k` times adds `k` to the index modulo `N`. -/
theorem handleNextImage_iterate (N : Nat) (hN : 0 < N) (k : Nat) (s : ProjectPageState)
    (h0 : 0 ≤ s.currentImageIndex) (h1 : s.currentImageIndex < (N : Int)) :
    ((handleNextImage N)^[k] s).currentImageIndex = (s.currentImageIndex + k) % (N : Int) := by
  have hN' : (0 : Int) < (N : Int) := by exact_mod_cast hN
  induction k with
  | zero =>
      simpa using (Int.emod_eq_of_lt h0 h1).symm
  | succ k ih =>
      rw [Function.iterate_succ_apply']
      have hm0 : 0 ≤ ((handleNextImage N)^[k] s).currentImageIndex := by
        rw [ih]; exact Int.emod_nonneg _ (by omega)
      have hm1 : ((handleNextImage N)^[k] s).currentImageIndex < (N : Int) := by
        rw [ih]; exact Int.emod_lt_of_pos _ hN'
      rw [handleNextImage_currentImageIndex N _ hN hm0 hm1, ih, emod_add_one]
      push_cast
      ring_nf

/-! Claim theorems. -/

/-- Claim C1 counterexample: with an empty image list (N = 0), `next()` is not
a no-op on `currentIndex` — from the mount state (index 0) it moves the index
to 1, refuting "they leave currentIndex unchanged". -/
theorem c1_next_changes_index_on_empty :
    (handleNextImage 0 mountState).currentImageIndex ≠ mountState.currentImageIndex := by
  decide

/-- Claim C1 (amended): with an empty image list (N = 0), `next()` and `prev()`
leave `viewerOpen` unchanged and do not throw (they are total), but they do
change `currentIndex`: `next()` sends index `i` to `0` when `i = -1` and to
`i + 1` otherwise, and `prev()` sends `i` to `-1` when `i = 0` and to `i - 1`
otherwise; the changed index is never rendered, since the carousel and the
viewer render nothing when the screenshot list is empty. -/
theorem c1_empty_nav_behaviour (s : ProjectPageState) :
    (handleNextImage 0 s).showImageViewer = s.showImageViewer ∧
    (handlePrevImage 0 s).showImageViewer = s.showImageViewer ∧
    (handleNextImage 0 s).currentImageIndex =
      (if s.currentImageIndex = -1 then 0 else s.currentImageIndex + 1) ∧
    (handlePrevImage 0 s).currentImageIndex =
      (if s.currentImageIndex = 0 then -1 else s.currentImageIndex - 1) := by
  refine ⟨rfl, rfl, ?_, ?_⟩ <;> norm_num [handleNextImage, handlePrevImage]

/-- Claim C2 counterexample: with N = 3 images, an explicit selection of the
out-of-range index 5 is not clamped — afterwards `currentIndex` is 5, which is
not in [0, 2], refuting "after the call currentIndex is still in [0, N-1]". -/
theorem c2_setIndex_not_clamped :
    ¬ (0 ≤ (setCurrentImageIndexOp 5 mountState).currentImageIndex ∧
        (setCurrentImageIndexOp 5 mountState).currentImageIndex ≤ (3 : Int) - 1) := by
  decide

/-- Claim C2 (amended): an explicit index selection
(`setCurrentImageIndex(index)`) stores exactly the requested index, with no
clamping and no fault; every call site in the program supplies an index that is
already in [0, N-1] (the indicator dots map over the screenshot list), so in
the program `currentIndex` remains valid. -/
theorem c2_setIndex_sets_exactly (i : Int) (s : ProjectPageState) :
    (setCurrentImageIndexOp i s).currentImageIndex = i := rfl

/-- Claim C3: for every N > 0 and every valid starting index, applying
`next()` exactly N times returns `currentIndex` to its starting value. -/
theorem c3_next_period (N : Nat) (s : ProjectPageState) (hN : 0 < N)
    (h0 : 0 ≤ s.currentImageIndex) (h1 : s.currentImageIndex < (N : Int)) :
    ((handleNextImage N)^[N] s).currentImageIndex = s.currentImageIndex := by
  rw [handleNextImage_iterate N hN N s h0 h1]
  have hsplit : s.currentImageIndex + (N : Int) = s.currentImageIndex + (N : Int) * 1 := by ring
  rw [hsplit, Int.add_mul_emod_self_left]
  exact Int.emod_eq_of_lt h0 h1

/-- Claim C3 witness: with N = 3 from the mount state (index 0), three
applications of `next()` return the index to 0. -/
theorem c3_next_period_witness :
    ((handleNextImage 3)^[3] mountState).currentImageIndex = mountState.currentImageIndex :=
  c3_next_period 3 mountState (by decide) (by decide) (by decide)

/-- Claim C4: for every N > 0 and every valid index, `prev()` undoes `next()`:
applying `next()` then `prev()` returns `currentIndex` to its starting value. -/
theorem c4_prev_next_inverse (N : Nat) (s : ProjectPageState) (hN : 0 < N)
    (h0 : 0 ≤ s.currentImageIndex) (h1 : s.currentImageIndex < (N : Int)) :
    (handlePrevImage N (handleNextImage N s)).currentImageIndex = s.currentImageIndex := by
  simp only [handleNextImage, handlePrevImage]
  split_ifs <;> omega

/-- Claim C4 witness: with N = 3 from the mount state (index 0), `next()` then
`prev()` returns the index to 0. -/
theorem c4_prev_next_inverse_witness :
    (handlePrevImage 3 (handleNextImage 3 mountState)).currentImageIndex =
      mountState.currentImageIndex :=
  c4_prev_next_inverse 3 mountState (by decide) (by decide) (by decide)

/-- Claim C5: on touch-end with a tracked start coordinate, a swipe distance
`startX - endX` strictly greater than 50 navigates to the next image, strictly
less than -50 navigates to the previous image, and anything in [-50, 50] —
including exactly 50 and exactly -50 — produces no navigation at all (only the
unconditional reset of `touchStartX`). -/
theorem c5_touchEnd_threshold (N : Nat) (startX endX : Int) (s : ProjectPageState)
    (h : s.touchStartX = some startX) :
    (startX - endX > 50 →
      handleTouchEnd N endX s = { handleNextImage N s with touchStartX := none }) ∧
    (startX - endX < -50 →
      handleTouchEnd N endX s = { handlePrevImage N s with touchStartX := none }) ∧
    (-50 ≤ startX - endX → startX - endX ≤ 50 →
      handleTouchEnd N endX s = { s with touchStartX := none }) := by
  refine ⟨?_, ?_, ?_⟩
  · intro h1
    simp only [handleTouchEnd, h]
    rw [if_pos h1]
  · intro h1
    simp only [handleTouchEnd, h]
    rw [if_neg (by omega), if_pos h1]
  · intro h1 h2
    simp only [handleTouchEnd, h]
    rw [if_neg (by omega), if_neg (by omega)]

/-- Claim C5 witness: with N = 4, a swipe of distance exactly 51 triggers next
navigation, while a swipe of distance exactly 50 produces no navigation. -/
theorem c5_touchEnd_threshold_witness :
    (handleTouchEnd 4 0 { showImageViewer := false, currentImageIndex := 0, touchStartX := some 51 } =
      { handleNextImage 4 { showImageViewer := false, currentImageIndex := 0, touchStartX := some 51 } with
          touchStartX := none }) ∧
    (handleTouchEnd 4 0 { showImageViewer := false, currentImageIndex := 0, touchStartX := some 50 } =
      { showImageViewer := false, currentImageIndex := 0, touchStartX := none }) :=
  ⟨(c5_touchEnd_threshold 4 51 0 _ rfl).1 (by decide),
   (c5_touchEnd_threshold 4 50 0
      { showImageViewer := false, currentImageIndex := 0, touchStartX := some 50 } rfl).2.2
      (by decide) (by decide)⟩

/-- Claim C6: for N > 0, the invariant `currentIndex ∈ [0, N-1]` is preserved
by `next()`, `prev()`, explicit selection of a valid index, opening the viewer
with a valid index, and closing the viewer. -/
theorem c6_index_invariant (N : Nat) (i : Int) (s : ProjectPageState)
    (hN : 0 < N) (h0 : 0 ≤ s.currentImageIndex) (h1 : s.currentImageIndex < (N : Int))
    (hi0 : 0 ≤ i) (hi1 : i < (N : Int)) :
    (0 ≤ (handleNextImage N s).currentImageIndex ∧
      (handleNextImage N s).currentImageIndex < (N : Int)) ∧
    (0 ≤ (handlePrevImage N s).currentImageIndex ∧
      (handlePrevImage N s).currentImageIndex < (N : Int)) ∧
    (0 ≤ (setCurrentImageIndexOp i s).currentImageIndex ∧
      (setCurrentImageIndexOp i s).currentImageIndex < (N : Int)) ∧
    (0 ≤ (handleOpenImageViewer i s).currentImageIndex ∧
      (handleOpenImageViewer i s).currentImageIndex < (N : Int)) ∧
    (0 ≤ (handleCloseImageViewer s).currentImageIndex ∧
      (handleCloseImageViewer s).currentImageIndex < (N : Int)) := by
  simp only [handleNextImage, handlePrevImage, setCurrentImageIndexOp,
    handleOpenImageViewer, handleCloseImageViewer]
  split_ifs <;> omega

/-- Claim C6 witness: with N = 2, index 1 and the mount state (index 0), every
operation keeps the index in [0, 1]. -/
theorem c6_index_invariant_witness :
    (0 ≤ (handleNextImage 2 mountState).currentImageIndex ∧
      (handleNextImage 2 mountState).currentImageIndex < ((2 : Nat) : Int)) ∧
    (0 ≤ (handlePrevImage 2 mountState).currentImageIndex ∧
      (handlePrevImage 2 mountState).currentImageIndex < ((2 : Nat) : Int)) ∧
    (0 ≤ (setCurrentImageIndexOp 1 mountState).currentImageIndex ∧
      (setCurrentImageIndexOp 1 mountState).currentImageIndex < ((2 : Nat) : Int)) ∧
    (0 ≤ (handleOpenImageViewer 1 mountState).currentImageIndex ∧
      (handleOpenImageViewer 1 mountState).currentImageIndex < ((2 : Nat) : Int)) ∧
    (0 ≤ (handleCloseImageViewer mountState).currentImageIndex ∧
      (handleCloseImageViewer mountState).currentImageIndex < ((2 : Nat) : Int)) :=
  c6_index_invariant 2 1 mountState (by decide) (by decide) (by decide) (by decide) (by decide)

/-- Claim C7: opening the overlay with clicked index i sets `currentIndex = i`
and `viewerOpen = true`, so the overlay displays the clicked image; a following
`next()` moves the shared index to `(i + 1) mod N` with the overlay still
open, so both the inline carousel and the overlay render the same new image. -/
theorem c7_open_then_next (N : Nat) (i : Int) (s : ProjectPageState)
    (hN : 0 < N) (hi0 : 0 ≤ i) (hi1 : i < (N : Int)) :
    (handleOpenImageViewer i s).currentImageIndex = i ∧
    (handleOpenImageViewer i s).showImageViewer = true ∧
    (handleNextImage N (handleOpenImageViewer i s)).currentImageIndex = (i + 1) % (N : Int) ∧
    (handleNextImage N (handleOpenImageViewer i s)).showImageViewer = true := by
  refine ⟨rfl, rfl, ?_, rfl⟩
  exact handleNextImage_currentImageIndex N (handleOpenImageViewer i s) hN hi0 hi1

/-- Claim C7 witness: with N = 4, opening at clicked index 3 shows image 3 with
the viewer open, and a following `next()` moves the shared index to
`(3 + 1) mod 4 = 0` with the viewer still open. -/
theorem c7_open_then_next_witness :
    (handleOpenImageViewer 3 mountState).currentImageIndex = 3 ∧
    (handleOpenImageViewer 3 mountState).showImageViewer = true ∧
    (handleNextImage 4 (handleOpenImageViewer 3 mountState)).currentImageIndex =
      (3 + 1) % ((4 : Nat) : Int) ∧
    (handleNextImage 4 (handleOpenImageViewer 3 mountState)).showImageViewer = true :=
  c7_open_then_next 4 3 mountState (by decide) (by decide) (by decide)

/-- Claim C8: closing the viewer sets `viewerOpen = false` and changes nothing
else — `currentIndex` and the gesture state are untouched; in particular, open
at index 2, close, then reopen via the inline image click still shows index 2. -/
theorem c8_close_preserves_index (s : ProjectPageState) :
    (handleCloseImageViewer s).showImageViewer = false ∧
    (handleCloseImageViewer s).currentImageIndex = s.currentImageIndex ∧
    (handleCloseImageViewer s).touchStartX = s.touchStartX ∧
    (inlineImageClick (handleCloseImageViewer (handleOpenImageViewer 2 s))).currentImageIndex = 2 ∧
    (inlineImageClick (handleCloseImageViewer (handleOpenImageViewer 2 s))).showImageViewer = true :=
  ⟨rfl, rfl, rfl, rfl, rfl⟩

/-- Claim C9: after every touch-end the tracked start coordinate is `none`
unconditionally, and a touch-end arriving while no touch-start is tracked
leaves the state exactly as it was (no navigation, no error). -/
theorem c9_touchEnd_resets (N : Nat) (endX : Int) (s : ProjectPageState) :
    (handleTouchEnd N endX s).touchStartX = none ∧
    handleTouchEnd N endX { s with touchStartX := none } = { s with touchStartX := none } := by
  constructor
  · cases hts : s.touchStartX <;> simp [handleTouchEnd, hts]
  · rfl

/-- Claim C10: the only call site that opens the viewer passes the current
index itself (`handleOpenImageViewer(currentImageIndex)` on the inline image
click), so opening the viewer leaves `currentIndex` and the gesture state
unchanged and only flips `viewerOpen` to true. -/
theorem c10_inline_click_frame (s : ProjectPageState) :
    inlineImageClick s = { s with showImageViewer := true } := rfl

end Portfolio
